import Mathlib

/-!
Shallow embedding of `src/software/chipwhisperer/capture/scopes/MSO4.py`
(Tektronix MSO 4-Series scope driver).

The pyvisa transport is modelled by an environment `Env` that decides, as a
function of the wire history, the textual response to each query, whether a
given wire operation raises, and the current wall-clock reading.  Every wire
operation performed by a method is recorded in `Scope.log` (newest first), so
theorems can speak about "wire traffic".  Python exceptions are modelled by
`Except (PyError × Scope)`: the error carries the state at raise time, which
makes frame conditions ("nothing was mutated before the error") provable.
Python `IOError` is an alias of `OSError`, so both map to `PyError.osError`.
The interpolated Python error messages embed `repr` of lists; those list
reprs are elided from the message strings here, keeping the leading text.
-/

namespace MSO4Spec

/-- A wire operation issued through the pyvisa transport. -/
inductive WireOp where
  | write (cmd : String)
  | query (cmd : String) (resp : String)
  | queryBinary (cmd : String) (datatype : String) (bigEndian : Bool)
deriving DecidableEq, Repr

/-- Python exception kinds raised by the module (`IOError` = `OSError`). -/
inductive PyError where
  | valueError (msg : String)
  | osError (msg : String)
  | keyError
  | visaError
deriving DecidableEq, Repr

/-- The mutable state of an `MSO4` instance, plus the wire log and a flag
recording whether the transport handle is open (pyvisa `close` has been
called or not). -/
structure Scope where
  srcAttr : String            -- `_src`; "" models Python None/unset
  modeAttr : String           -- `_mode`
  record_len : Int            -- `_record_len`
  timeoutAttr : Nat           -- `_timeout`, seconds
  cached_wfm_byte_nr : Int    -- `_cached_wfm_byte_nr`; 0 = unset
  cached_wfm_format : String  -- `_cached_wfm_format`; "" = unset
  cached_wfm_order : String   -- `_cached_wfm_order`; "" = unset
  cached_wfm_encoding : String -- `_cached_wfm_encoding`; "" = unset
  wfm_data_points : List Int
  connectStatus : Bool
  transportOpen : Bool
  log : List WireOp
deriving DecidableEq, Repr

/-- The transport/clock environment: responses, failure injection and the
wall clock, all as functions of the wire history. -/
structure Env where
  resp : List WireOp → String → String
  fails : List WireOp → String → Bool
  now : List WireOp → Nat
  binData : List WireOp → List Int
  openFails : Bool

/-- Result of a method: normal return or a Python exception carrying the
state at raise time. -/
abbrev PyResult (α : Type) := Except (PyError × Scope) α

/-- Python `str.lower()` (structurally recursive so that the kernel can
evaluate it, unlike `String.toLower`). -/
def pyLower (x : String) : String :=
  String.mk (x.data.map Char.toLower)

/-- Drop leading whitespace characters. -/
def dropWs : List Char → List Char
  | [] => []
  | c :: cs => if c.isWhitespace then dropWs cs else c :: cs

/-- Python `str.strip()`. -/
def pyStrip (x : String) : String :=
  String.mk (dropWs (dropWs x.data.reverse).reverse)

/-- Whether the first list is an initial segment of the second. -/
def leadMatch : List Char → List Char → Bool
  | [], _ => true
  | _ :: _, [] => false
  | a :: as, b :: bs => a == b && leadMatch as bs

/-- Substring search over character lists. -/
def subSearch (needle : List Char) : List Char → Bool
  | [] => leadMatch needle []
  | c :: cs => leadMatch needle (c :: cs) || subSearch needle cs

/-- Python `needle in hay` on strings. -/
def strContains (hay needle : String) : Bool :=
  subSearch needle.data hay.data

/-- Value of a digit run (`none` on any non-digit character). -/
def digitsVal : List Char → Nat → Option Nat
  | [], acc => some acc
  | c :: cs, acc =>
      if c.isDigit then digitsVal cs (acc * 10 + (c.toNat - 48)) else none

/-- Python `int(x)`: strip, optional sign, digit run; `none` models the
`ValueError` raised on a non-numeric literal. -/
def pyInt (x : String) : Option Int :=
  match (pyStrip x).data with
  | [] => none
  | '-' :: cs =>
      (match cs with
       | [] => none
       | _ => (digitsVal cs 0).map (fun n => -(n : Int)))
  | '+' :: cs =>
      (match cs with
       | [] => none
       | _ => (digitsVal cs 0).map (fun n => (n : Int)))
  | cs => (digitsVal cs 0).map (fun n => (n : Int))

/-- Python `str.split(sep)` for the one separator the module uses (","). -/
def splitCommaAux : List Char → List Char → List String
  | [], acc => [String.mk acc.reverse]
  | c :: cs, acc =>
      if c = ',' then String.mk acc.reverse :: splitCommaAux cs []
      else splitCommaAux cs (c :: acc)

/-- Python `idn.split(',')`. -/
def splitComma (x : String) : List String :=
  splitCommaAux x.data []

/-- `self.sc.query(cmd)`: may raise (per `Env.fails`), otherwise appends the
query to the log and returns the environment's response. -/
def wquery (env : Env) (cmd : String) (s : Scope) : PyResult (String × Scope) :=
  if env.fails s.log cmd then .error (.visaError, s)
  else
    let r := env.resp s.log cmd
    .ok (r, { s with log := .query cmd r :: s.log })

/-- `self.sc.write(cmd)`: may raise, otherwise appends the write to the log. -/
def wwrite (env : Env) (cmd : String) (s : Scope) : PyResult Scope :=
  if env.fails s.log cmd then .error (.visaError, s)
  else .ok { s with log := .write cmd :: s.log }

/-- Class attribute `sources`. -/
def sources : List String := ["ch1", "ch2", "ch3", "ch4"]

/-- Class attribute `modes`. -/
def modes : List String := ["sample", "peakdetect", "hires", "average", "envelope"]

/-- Class attribute `wfm_encodings`. -/
def wfm_encodings : List String := ["binary", "ascii"]

/-- Class attribute `wfm_binary_formats`. -/
def wfm_binary_formats : List String := ["ri", "rp", "fp"]

/-- Class attribute `wfm_byte_nrs` (source line 33: `[1, 2, 8]`). -/
def wfm_byte_nrs : List Int := [1, 2, 8]

/-- Class attribute `wfm_byte_orders`. -/
def wfm_byte_orders : List String := ["lsb", "msb"]

/-- `MSO4.__init__`: the freshly constructed state (log empty, transport
not yet opened). -/
def initScope : Scope :=
  { srcAttr := "", modeAttr := "", record_len := 0, timeoutAttr := 2
    cached_wfm_byte_nr := 0, cached_wfm_format := "", cached_wfm_order := ""
    cached_wfm_encoding := "", wfm_data_points := [], connectStatus := false
    transportOpen := false, log := [] }

/-- `MSO4._clear_cache`. -/
def clear_cache (s : Scope) : Scope :=
  { s with cached_wfm_byte_nr := 0, cached_wfm_format := ""
           cached_wfm_order := "", cached_wfm_encoding := "" }

/-- `MSO4.dis`: closes transport and resource manager, clears the
connection flag.  Issues no SCPI wire traffic. -/
def dis (s : Scope) : Scope :=
  { s with transportOpen := false, connectStatus := false }

/-- Getter of property `wfm_encoding` (lazy read-through cache). -/
def wfm_encoding_get (env : Env) (s : Scope) : PyResult (String × Scope) :=
  if s.cached_wfm_encoding == "" then
    match wquery env "WFMOutpre:ENCdg?" s with
    | .error e => .error e
    | .ok (r, s) =>
        let v := pyLower (pyStrip r)
        .ok (v, { s with cached_wfm_encoding := v })
  else .ok (s.cached_wfm_encoding, s)

/-- Setter of property `wfm_encoding`: validate (case-insensitively),
short-circuit on cache equality, else update cache then write. -/
def wfm_encoding_set (env : Env) (v : String) (s : Scope) : PyResult Scope :=
  if (wfm_encodings.contains (pyLower v)) = false then
    .error (.valueError ("Invalid encoding " ++ v), s)
  else if s.cached_wfm_encoding == v then .ok s
  else wwrite env ("WFMOutpre:ENCdg " ++ v) { s with cached_wfm_encoding := v }

/-- Getter of property `wfm_binary_format`. -/
def wfm_binary_format_get (env : Env) (s : Scope) : PyResult (String × Scope) :=
  if s.cached_wfm_format == "" then
    match wquery env "WFMOutpre:BN_Fmt?" s with
    | .error e => .error e
    | .ok (r, s) =>
        let v := pyLower (pyStrip r)
        .ok (v, { s with cached_wfm_format := v })
  else .ok (s.cached_wfm_format, s)

/-- Setter of property `wfm_binary_format`. -/
def wfm_binary_format_set (env : Env) (v : String) (s : Scope) : PyResult Scope :=
  if (wfm_binary_formats.contains (pyLower v)) = false then
    .error (.valueError ("Invalid binary format " ++ v), s)
  else if s.cached_wfm_format == v then .ok s
  else wwrite env ("WFMOutpre:BN_Fmt " ++ v) { s with cached_wfm_format := v }

/-- Getter of property `wfm_byte_nr` (the `int(...)` parse may raise). -/
def wfm_byte_nr_get (env : Env) (s : Scope) : PyResult (Int × Scope) :=
  if s.cached_wfm_byte_nr == 0 then
    match wquery env "WFMOutpre:BYT_Nr?" s with
    | .error e => .error e
    | .ok (r, s) =>
        match pyInt r with
        | none => .error (.valueError "invalid literal for int", s)
        | some n => .ok (n, { s with cached_wfm_byte_nr := n })
  else .ok (s.cached_wfm_byte_nr, s)

/-- Setter of property `wfm_byte_nr`.  The `isinstance(value, int)` guard is
discharged by the Lean type of `v`. -/
def wfm_byte_nr_set (env : Env) (v : Int) (s : Scope) : PyResult Scope :=
  if (wfm_byte_nrs.contains v) = false then
    .error (.valueError ("Invalid number of bytes per data point " ++ toString v), s)
  else if s.cached_wfm_byte_nr == v then .ok s
  else wwrite env ("WFMOutpre:BYT_Nr " ++ toString v) { s with cached_wfm_byte_nr := v }

/-- Getter of property `wfm_byte_order`. -/
def wfm_byte_order_get (env : Env) (s : Scope) : PyResult (String × Scope) :=
  if s.cached_wfm_order == "" then
    match wquery env "WFMOutpre:BYT_Or?" s with
    | .error e => .error e
    | .ok (r, s) =>
        let v := pyLower (pyStrip r)
        .ok (v, { s with cached_wfm_order := v })
  else .ok (s.cached_wfm_order, s)

/-- Setter of property `wfm_byte_order`. -/
def wfm_byte_order_set (env : Env) (v : String) (s : Scope) : PyResult Scope :=
  if (wfm_byte_orders.contains (pyLower v)) = false then
    .error (.valueError ("Invalid byte order " ++ v), s)
  else if s.cached_wfm_order == v then .ok s
  else wwrite env ("WFMOutpre:BYT_Or " ++ v) { s with cached_wfm_order := v }

/-- Setter of property `src` (no cache: always writes after validation). -/
def src_set (env : Env) (v : String) (s : Scope) : PyResult Scope :=
  if (sources.contains (pyLower v)) = false then
    .error (.valueError ("Invalid source " ++ v), s)
  else wwrite env ("DATa:SOUrce " ++ v) { s with srcAttr := v }

/-- Setter of property `mode` (no cache: always writes after validation). -/
def mode_set (env : Env) (v : String) (s : Scope) : PyResult Scope :=
  if (modes.contains (pyLower v)) = false then
    .error (.valueError ("Invalid mode " ++ v), s)
  else wwrite env ("ACQuire:MODe " ++ v) { s with modeAttr := v }

/-- `MSO4.get_last_trace`: pure accessor on the waveform buffer. -/
def get_last_trace (s : Scope) : List Int :=
  s.wfm_data_points

/-- The parsed `*IDN?` response. -/
structure ScopeId where
  vendor : String
  model : String
  serial : String
  firmware : String
deriving DecidableEq, Repr

/-- `MSO4._id_scope`: query `*IDN?` (catching transport failure with a
forced disconnect before re-raising), then split on commas; a response that
does not split into exactly 4 fields raises `OSError` (with no disconnect,
the split check being outside the try block). -/
def id_scope (env : Env) (s : Scope) : PyResult (ScopeId × Scope) :=
  match wquery env "*IDN?" s with
  | .error (e, s) => .error (e, dis s)
  | .ok (idn, s) =>
      let parts := splitComma idn
      if parts.length != 4 then
        .error (.osError "Invalid IDN string returned from scope", s)
      else
        .ok ({ vendor := parts.getD 0 "", model := parts.getD 1 ""
               serial := parts.getD 2 "", firmware := parts.getD 3 "" }, s)

/-- The waveform-configuration block of `MSO4.con` (the body of the second
try statement, lines 136-150): pin encoding/format/order/width, read the
record length, set the data window. -/
def conConfig (env : Env) (s : Scope) : PyResult Scope :=
  match wfm_encoding_set env "binary" s with
  | .error e => .error e
  | .ok s =>
  match wfm_binary_format_set env "ri" s with
  | .error e => .error e
  | .ok s =>
  match wfm_byte_order_set env "lsb" s with
  | .error e => .error e
  | .ok s =>
  match wfm_byte_nr_set env 2 s with
  | .error e => .error e
  | .ok s =>
  match wquery env "HORizontal:MODe:RECOrdlength?" s with
  | .error e => .error e
  | .ok (r, s) =>
  match pyInt r with
  | none => .error (.valueError "invalid literal for int", s)
  | some n =>
  let s := { s with record_len := n }
  match wwrite env "DATA:START 1" s with
  | .error e => .error e
  | .ok s =>
  match wwrite env ("DATA:STOP " ++ toString n) s with
  | .error e => .error e
  | .ok s => .ok s

/-- `MSO4.con`: address check, transport open, identity verification,
baseline setup (`DESE 255`, `*CLS`), waveform configuration; the
connection flag is set only as the very last step.  Setup failures after
identity force a disconnect before re-raising; the vendor/model rejections
disconnect explicitly. -/
def con (env : Env) (ip : String) (s : Scope) : PyResult Scope :=
  if ip == "" then .error (.valueError "IP address must be specified", s)
  else if env.openFails then .error (.visaError, s)
  else
  let s := { s with transportOpen := true }
  match id_scope env s with
  | .error e => .error e
  | .ok (sid, s) =>
  if sid.vendor != "TEKTRONIX" then
    .error (.osError ("Invalid vendor returned from scope " ++ sid.vendor), dis s)
  else if (["MSO44", "MSO46"].contains sid.model) = false then
    .error (.osError ("Invalid model returned from scope " ++ sid.model), dis s)
  else
  match wwrite env "DESE 255" s with
  | .error (e, s) => .error (e, dis s)
  | .ok s =>
  match wwrite env "*CLS" s with
  | .error (e, s) => .error (e, dis s)
  | .ok s =>
  match conConfig env s with
  | .error (e, s) => .error (e, dis s)
  | .ok s => .ok { s with connectStatus := true }

/-- The `for _ in range(10)` polling loop of `MSO4.arm`: returns `true` as
soon as `ACQuire:STATE?` strips to "1", `false` when the budget is
exhausted (the for-else branch). -/
def armPoll (env : Env) : Nat → Scope → PyResult (Bool × Scope)
  | 0, s => .ok (false, s)
  | n + 1, s =>
      match wquery env "ACQuire:STATE?" s with
      | .error e => .error e
      | .ok (r, s) =>
          if pyStrip r == "1" then .ok (true, s)
          else armPoll env n s

/-- `MSO4.arm`: `OSError` when disconnected (before any wire traffic);
otherwise write the acquire-start command and poll up to 10 times; any
failure inside the try block (including budget exhaustion) forces a
disconnect before re-raising. -/
def arm (env : Env) (s : Scope) : PyResult Scope :=
  if s.connectStatus = false then
    .error (.osError "Scope is not connected. Connect it first...", s)
  else
    match wwrite env "ACQuire:STATE 1" s with
    | .error (e, s) => .error (e, dis s)
    | .ok s =>
    match armPoll env 10 s with
    | .error (e, s) => .error (e, dis s)
    | .ok (true, s) => .ok s
    | .ok (false, s) => .error (.osError "Failed to arm scope", dis s)

/-- The decode table of `MSO4.capture` (`types`, lines 243-248), keyed by
(byte width, binary format); `none` models a Python `KeyError`. -/
def typesTable (n : Int) (fmt : String) : Option String :=
  if n = 1 then
    if fmt = "ri" then some "b" else if fmt = "rp" then some "B" else none
  else if n = 2 then
    if fmt = "ri" then some "h" else if fmt = "rp" then some "H" else none
  else if n = 4 then
    if fmt = "ri" then some "i" else if fmt = "rp" then some "I"
    else if fmt = "fp" then some "f" else none
  else if n = 8 then
    if fmt = "ri" then some "q" else if fmt = "rp" then some "Q"
    else if fmt = "fp" then some "d" else none
  else none

/-- Outcome of `capture`: normal return of the timed-out flag, a raised
exception, or exhaustion of the fuel bounding the two unbounded-in-Python
polling loops. -/
inductive CapOut where
  | ok (timedOut : Bool) (s : Scope)
  | err (e : PyError) (s : Scope)
  | spin
deriving DecidableEq, Repr

/-- The trigger-wait loop of `capture` (lines 224-231): poll
`TRIGger:STATE?` while the response contains "armed"; on deadline expiry
(measured from `start`) force-trigger and break with the timed-out flag
set. -/
def trigWait (env : Env) (start tmo : Nat) : Nat → Scope → CapOut
  | 0, _ => .spin
  | fuel + 1, s =>
      match wquery env "TRIGger:STATE?" s with
      | .error (e, s) => .err e s
      | .ok (r, s) =>
          if strContains (pyLower r) "armed" then
            let diff := env.now s.log - start
            if tmo < diff then
              match wwrite env "TRIGger FORCe" s with
              | .error (e, s) => .err e s
              | .ok s => .ok true s
            else trigWait env start tmo fuel s
          else .ok false s

/-- The data-wait loop of `capture` (lines 234-239): poll
`DATa:SOUrce:AVAILable?` while the response contains "none"; on deadline
expiry (measured from the same `start`) return the timed-out flag
immediately.  `ok true` = returned timed out, `ok false` = data present. -/
def dataWait (env : Env) (start tmo : Nat) : Nat → Scope → CapOut
  | 0, _ => .spin
  | fuel + 1, s =>
      match wquery env "DATa:SOUrce:AVAILable?" s with
      | .error (e, s) => .err e s
      | .ok (r, s) =>
          if strContains (pyLower r) "none" then
            let diff := env.now s.log - start
            if tmo < diff then .ok true s
            else dataWait env start tmo fuel s
          else .ok false s

/-- The decode step of `capture` (lines 243-263): re-read the (now cached)
settings, look the element type up in the decode table (`KeyError` on a
miss), and replace the waveform buffer wholesale via the binary query;
a non-"binary" encoding raises `IOError` (= `OSError`). -/
def captureDecode (env : Env) (timedOut : Bool) (s : Scope) : CapOut :=
  match wfm_encoding_get env s with
  | .error (e, s) => .err e s
  | .ok (enc, s) =>
  if enc == "binary" then
    match wfm_byte_nr_get env s with
    | .error (e, s) => .err e s
    | .ok (bn, s) =>
    match wfm_binary_format_get env s with
    | .error (e, s) => .err e s
    | .ok (bf, s) =>
    match typesTable bn bf with
    | none => .err .keyError s
    | some dt =>
    match wfm_byte_order_get env s with
    | .error (e, s) => .err e s
    | .ok (bo, s) =>
    if env.fails s.log "CURVE?" then .err .visaError s
    else
      let data := env.binData s.log
      .ok timedOut
        { s with wfm_data_points := data
                 log := .queryBinary "CURVE?" dt (bo == "msb") :: s.log }
  else .err (.osError "Unknown data encoding") s

/-- `MSO4.capture`: precondition checks (source selected, then the
`all([...])` truthiness check whose four property reads may lazily query
the instrument), capture-start timestamp, trigger-wait loop, data-wait
loop, decode. -/
def capture (env : Env) (fuel : Nat) (s : Scope) : CapOut :=
  if s.srcAttr == "" then
    .err (.valueError "Must set waveform source before starting capture") s
  else
    match wfm_byte_nr_get env s with
    | .error (e, s) => .err e s
    | .ok (bn, s) =>
    match wfm_binary_format_get env s with
    | .error (e, s) => .err e s
    | .ok (bf, s) =>
    match wfm_byte_order_get env s with
    | .error (e, s) => .err e s
    | .ok (bo, s) =>
    match wfm_encoding_get env s with
    | .error (e, s) => .err e s
    | .ok (enc, s) =>
    if bn == 0 || bf == "" || bo == "" || enc == "" then
      .err (.valueError "Must arm scope before starting capture") s
    else
      let start := env.now s.log
      match trigWait env start s.timeoutAttr fuel s with
      | .spin => .spin
      | .err e s => .err e s
      | .ok timedOut s =>
      match dataWait env start s.timeoutAttr fuel s with
      | .spin => .spin
      | .err e s => .err e s
      | .ok true s => .ok true s
      | .ok false s => captureDecode env timedOut s

/-! ### Observation helpers -/

/-- The state carried by a method result (the raise-time state on error). -/
def resState : PyResult Scope → Scope
  | .ok s => s
  | .error (_, s) => s

/-- The state carried by a getter result. -/
def gstate {α : Type} : PyResult (α × Scope) → Scope
  | .ok (_, s) => s
  | .error (_, s) => s

/-- Whether a setter result is the domain-validation `ValueError`. -/
def isValueErr : PyResult Scope → Bool
  | .error (.valueError _, _) => true
  | _ => false

/-- The exception carried by a `capture` outcome, if any. -/
def CapOut.errOf : CapOut → Option PyError
  | .err e _ => some e
  | _ => none

/-- Whether a `capture` outcome is a normal (non-raising) return. -/
def CapOut.isOk : CapOut → Bool
  | .ok _ _ => true
  | _ => false

/-- The state carried by a `capture` outcome (`initScope` for `spin`). -/
def CapOut.stateOf : CapOut → Scope
  | .ok _ s => s
  | .err _ s => s
  | .spin => initScope

/-- The exception carried by a method result, if any. -/
def errOf : PyResult Scope → Option PyError
  | .error (e, _) => some e
  | .ok _ => none

/-- Number of `query` operations for a given command in a wire log. -/
def nQueries (cmd : String) : List WireOp → Nat
  | [] => 0
  | .query c _ :: l => (if c == cmd then 1 else 0) + nQueries cmd l
  | _ :: l => nQueries cmd l

/-- An environment whose queries all answer the empty string and never
fail; used for concrete witnesses. -/
def env0 : Env :=
  { resp := fun _ _ => "", fails := fun _ _ => false, now := fun _ => 0
    binData := fun _ => [], openFails := false }

/-! ### C5: waveform byte-width domain -/

/-- C5 counterexample: the claim says width 4 passes domain validation, but
the declared domain is `[1, 2, 8]` (source line 33), so setting the byte
width to 4 raises the invalid-value `ValueError`. -/
theorem byte_nr_four_rejected :
    wfm_byte_nr_set env0 4 initScope =
      .error (.valueError "Invalid number of bytes per data point 4", initScope) := by
  rfl

/-- C5 (corrected): the declared valid-value domain for waveform byte width
is exactly {1, 2, 8} — a width passes the setter's domain validation iff it
lies in `wfm_byte_nrs`, and width 4 in particular raises the invalid-value
error — while the decode table is keyed on exactly the (width, format)
pairs {1,2,4,8} × {ri, rp} plus {4,8} × {fp}. -/
theorem byte_nr_domain_exact (env : Env) (v : Int) (s : Scope) :
    (isValueErr (wfm_byte_nr_set env v s) = !(wfm_byte_nrs.contains v)) ∧
    (∀ n : Int, ∀ fmt : String, (typesTable n fmt).isSome = true ↔
      (n, fmt) ∈ ([(1, "ri"), (1, "rp"), (2, "ri"), (2, "rp"), (4, "ri"),
        (4, "rp"), (4, "fp"), (8, "ri"), (8, "rp"), (8, "fp")] : List (Int × String))) := by
  constructor
  · unfold wfm_byte_nr_set
    split
    · next h => simp only [h, Bool.not_false]; rfl
    · next h =>
        simp only [Bool.not_eq_false] at h
        rw [h, Bool.not_true]
        split
        · simp [isValueErr]
        · unfold wwrite
          split <;> simp [isValueErr]
  · intro n fmt
    simp only [typesTable, List.mem_cons, List.not_mem_nil, or_false, Prod.mk.injEq]
    split_ifs <;> simp_all

/-! ### C7: cache idempotence of the write-through setters -/

/-- C7 (confirmed): setting any of the four cached waveform settings to the
value currently in its cache produces no wire traffic and leaves the whole
state — cache included — unchanged, whether the result is a normal return
or the domain-validation error; writes can therefore only occur when the
new value differs from the cached one. -/
theorem cached_setters_elide_equal_writes (env : Env) (s : Scope)
    (ve vf vo : String) (vn : Int)
    (he : ve = s.cached_wfm_encoding) (hf : vf = s.cached_wfm_format)
    (ho : vo = s.cached_wfm_order) (hn : vn = s.cached_wfm_byte_nr) :
    resState (wfm_encoding_set env ve s) = s ∧
    resState (wfm_binary_format_set env vf s) = s ∧
    resState (wfm_byte_nr_set env vn s) = s ∧
    resState (wfm_byte_order_set env vo s) = s := by
  subst he hf ho hn
  refine ⟨?_, ?_, ?_, ?_⟩ <;>
    · simp only [wfm_encoding_set, wfm_binary_format_set, wfm_byte_nr_set,
        wfm_byte_order_set, beq_self_eq_true, if_true]
      split <;> simp [resState]

/-- C7 witness: a concrete state whose encoding cache holds "binary"; the
setter applied to "binary" returns the state unchanged. -/
theorem cached_setters_elide_equal_writes_witness :
    resState (wfm_encoding_set env0 "binary"
      { initScope with cached_wfm_encoding := "binary", cached_wfm_format := "ri"
                       cached_wfm_order := "lsb", cached_wfm_byte_nr := 2 }) =
      { initScope with cached_wfm_encoding := "binary", cached_wfm_format := "ri"
                       cached_wfm_order := "lsb", cached_wfm_byte_nr := 2 } :=
  (cached_setters_elide_equal_writes env0
    { initScope with cached_wfm_encoding := "binary", cached_wfm_format := "ri"
                     cached_wfm_order := "lsb", cached_wfm_byte_nr := 2 }
    "binary" "ri" "lsb" 2 rfl rfl rfl rfl).1

/-! ### C8: out-of-domain values are rejected before any effect -/

/-- C8 (confirmed): for each settable parameter (encoding, binary format,
byte width, byte order, source, mode), a value outside its declared domain
makes the setter raise `ValueError` with the raise-time state identical to
the input state — no command is sent and no field is mutated before the
error. -/
theorem setters_reject_out_of_domain (env : Env) (s : Scope)
    (ve vf vo vs vm : String) (vn : Int)
    (he : wfm_encodings.contains (pyLower ve) = false)
    (hf : wfm_binary_formats.contains (pyLower vf) = false)
    (hn : wfm_byte_nrs.contains vn = false)
    (ho : wfm_byte_orders.contains (pyLower vo) = false)
    (hs : sources.contains (pyLower vs) = false)
    (hm : modes.contains (pyLower vm) = false) :
    wfm_encoding_set env ve s = .error (.valueError ("Invalid encoding " ++ ve), s) ∧
    wfm_binary_format_set env vf s = .error (.valueError ("Invalid binary format " ++ vf), s) ∧
    wfm_byte_nr_set env vn s =
      .error (.valueError ("Invalid number of bytes per data point " ++ toString vn), s) ∧
    wfm_byte_order_set env vo s = .error (.valueError ("Invalid byte order " ++ vo), s) ∧
    src_set env vs s = .error (.valueError ("Invalid source " ++ vs), s) ∧
    mode_set env vm s = .error (.valueError ("Invalid mode " ++ vm), s) := by
  refine ⟨?_, ?_, ?_, ?_, ?_, ?_⟩
  · unfold wfm_encoding_set; rw [if_pos he]
  · unfold wfm_binary_format_set; rw [if_pos hf]
  · unfold wfm_byte_nr_set; rw [if_pos hn]
  · unfold wfm_byte_order_set; rw [if_pos ho]
  · unfold src_set; rw [if_pos hs]
  · unfold mode_set; rw [if_pos hm]

/-- C8 witness: concrete out-of-domain values for all six setters. -/
theorem setters_reject_out_of_domain_witness :
    wfm_encoding_set env0 "hex" initScope =
      .error (.valueError "Invalid encoding hex", initScope) ∧
    wfm_binary_format_set env0 "xx" initScope =
      .error (.valueError "Invalid binary format xx", initScope) ∧
    wfm_byte_nr_set env0 3 initScope =
      .error (.valueError "Invalid number of bytes per data point 3", initScope) ∧
    wfm_byte_order_set env0 "mid" initScope =
      .error (.valueError "Invalid byte order mid", initScope) ∧
    src_set env0 "ch9" initScope =
      .error (.valueError "Invalid source ch9", initScope) ∧
    mode_set env0 "fast" initScope =
      .error (.valueError "Invalid mode fast", initScope) :=
  setters_reject_out_of_domain env0 initScope "hex" "xx" "mid" "ch9" "fast" 3
    (by decide) (by decide) (by decide) (by decide) (by decide) (by decide)

/-! ### C9: cache clear -/

/-- C9 counterexample: `_clear_cache` does not clear the waveform buffer —
on a state holding the decoded sample `[5]`, the buffer still holds `[5]`
after the clear, contradicting the claim that the buffer is cleared. -/
theorem clear_cache_keeps_buffer :
    ({ initScope with wfm_data_points := [5] } : Scope).wfm_data_points = [5] ∧
    (clear_cache { initScope with wfm_data_points := [5] }).wfm_data_points = [5] := by
  exact ⟨rfl, rfl⟩

/-- C9 (corrected): `_clear_cache` invalidates every cached setting value
while issuing no wire traffic, and afterwards the first read of each cached
setting issues exactly one query regardless of prior cache state; the
waveform buffer, however, is left unchanged, not cleared. -/
theorem clear_cache_spec (env : Env) (s : Scope)
    (h1 : env.fails s.log "WFMOutpre:ENCdg?" = false)
    (h2 : env.fails s.log "WFMOutpre:BN_Fmt?" = false)
    (h3 : env.fails s.log "WFMOutpre:BYT_Nr?" = false)
    (h4 : env.fails s.log "WFMOutpre:BYT_Or?" = false) :
    (clear_cache s).log = s.log ∧
    (clear_cache s).cached_wfm_encoding = "" ∧
    (clear_cache s).cached_wfm_format = "" ∧
    (clear_cache s).cached_wfm_byte_nr = 0 ∧
    (clear_cache s).cached_wfm_order = "" ∧
    (clear_cache s).wfm_data_points = s.wfm_data_points ∧
    (gstate (wfm_encoding_get env (clear_cache s))).log =
      .query "WFMOutpre:ENCdg?" (env.resp s.log "WFMOutpre:ENCdg?") :: s.log ∧
    (gstate (wfm_binary_format_get env (clear_cache s))).log =
      .query "WFMOutpre:BN_Fmt?" (env.resp s.log "WFMOutpre:BN_Fmt?") :: s.log ∧
    (gstate (wfm_byte_nr_get env (clear_cache s))).log =
      .query "WFMOutpre:BYT_Nr?" (env.resp s.log "WFMOutpre:BYT_Nr?") :: s.log ∧
    (gstate (wfm_byte_order_get env (clear_cache s))).log =
      .query "WFMOutpre:BYT_Or?" (env.resp s.log "WFMOutpre:BYT_Or?") :: s.log := by
  refine ⟨rfl, rfl, rfl, rfl, rfl, rfl, ?_, ?_, ?_, ?_⟩
  · simp [wfm_encoding_get, clear_cache, wquery, h1, gstate]
  · simp [wfm_binary_format_get, clear_cache, wquery, h2, gstate]
  · simp only [wfm_byte_nr_get, clear_cache, wquery, h3]
    rcases hp : pyInt (env.resp s.log "WFMOutpre:BYT_Nr?") with _ | n <;>
      simp [hp, gstate]
  · simp [wfm_byte_order_get, clear_cache, wquery, h4, gstate]

/-- C9 witness: the amended clear-cache contract evaluated on a concrete
populated state under `env0`. -/
theorem clear_cache_spec_witness :
    (clear_cache { initScope with cached_wfm_encoding := "binary" }).log = [] ∧
    (clear_cache { initScope with cached_wfm_encoding := "binary" }).cached_wfm_encoding = "" ∧
    (clear_cache { initScope with cached_wfm_encoding := "binary" }).cached_wfm_format = "" ∧
    (clear_cache { initScope with cached_wfm_encoding := "binary" }).cached_wfm_byte_nr = 0 ∧
    (clear_cache { initScope with cached_wfm_encoding := "binary" }).cached_wfm_order = "" ∧
    (clear_cache { initScope with cached_wfm_encoding := "binary" }).wfm_data_points = [] ∧
    (gstate (wfm_encoding_get env0 (clear_cache { initScope with cached_wfm_encoding := "binary" }))).log =
      [.query "WFMOutpre:ENCdg?" ""] ∧
    (gstate (wfm_binary_format_get env0 (clear_cache { initScope with cached_wfm_encoding := "binary" }))).log =
      [.query "WFMOutpre:BN_Fmt?" ""] ∧
    (gstate (wfm_byte_nr_get env0 (clear_cache { initScope with cached_wfm_encoding := "binary" }))).log =
      [.query "WFMOutpre:BYT_Nr?" ""] ∧
    (gstate (wfm_byte_order_get env0 (clear_cache { initScope with cached_wfm_encoding := "binary" }))).log =
      [.query "WFMOutpre:BYT_Or?" ""] :=
  clear_cache_spec env0 { initScope with cached_wfm_encoding := "binary" }
    rfl rfl rfl rfl

/-! ### C4: arm retry budget and failure path -/

/-- The log produced by `n` acquisition-state polls on top of `l`. -/
def armPollLog (env : Env) : Nat → List WireOp → List WireOp
  | 0, l => l
  | n + 1, l =>
      armPollLog env n (WireOp.query "ACQuire:STATE?" (env.resp l "ACQuire:STATE?") :: l)

/-- Under a transport that never fails and never reports "1", the arm poll
loop runs its whole budget, adding exactly one acquisition-state query per
attempt and touching nothing but the log. -/
lemma armPoll_exhausts (env : Env)
    (hf : ∀ l, env.fails l "ACQuire:STATE?" = false)
    (hr : ∀ l, pyStrip (env.resp l "ACQuire:STATE?") ≠ "1") :
    ∀ n s, armPoll env n s = .ok (false, { s with log := armPollLog env n s.log }) := by
  intro n
  induction n with
  | zero => intro s; rfl
  | succ n ih =>
      intro s
      have hb : (pyStrip (env.resp s.log "ACQuire:STATE?") == "1") = false :=
        beq_eq_false_iff_ne.mpr (hr s.log)
      have step : armPoll env (n + 1) s = armPoll env n
          { s with log := WireOp.query "ACQuire:STATE?" (env.resp s.log "ACQuire:STATE?") :: s.log } := by
        rw [armPoll]
        unfold wquery
        rw [hf s.log]
        simp only [hb, Bool.false_eq_true, if_false]
      rw [step, ih]
      rfl

/-- Appending one query for `cmd` bumps `nQueries cmd` by one. -/
lemma nQueries_cons_query (cmd r : String) (l : List WireOp) :
    nQueries cmd (WireOp.query cmd r :: l) = nQueries cmd l + 1 := by
  simp [nQueries]
  omega

/-- `n` acquisition-state polls add `n` to the query count. -/
lemma nQueries_armPollLog (env : Env) (n : Nat) (l : List WireOp) :
    nQueries "ACQuire:STATE?" (armPollLog env n l) =
      nQueries "ACQuire:STATE?" l + n := by
  induction n generalizing l with
  | zero => rfl
  | succ n ih =>
      unfold armPollLog
      rw [ih, nQueries_cons_query]
      omega

/-- C4 (confirmed): a disconnected session makes `arm()` raise the
not-connected `OSError` with the state untouched (no wire traffic); a
connected session whose transport never reports the acquisition state as
"1" is polled exactly 10 times after the acquire-start write, after which
`arm()` raises the arm-failure `OSError` and the connection flag is left
false (forced disconnect). -/
theorem arm_budget_and_preconditions (env : Env) (s : Scope) :
    (s.connectStatus = false →
       arm env s = .error (.osError "Scope is not connected. Connect it first...", s)) ∧
    (s.connectStatus = true →
     env.fails s.log "ACQuire:STATE 1" = false →
     (∀ l, env.fails l "ACQuire:STATE?" = false) →
     (∀ l, pyStrip (env.resp l "ACQuire:STATE?") ≠ "1") →
     errOf (arm env s) = some (.osError "Failed to arm scope") ∧
     (resState (arm env s)).connectStatus = false ∧
     nQueries "ACQuire:STATE?" (resState (arm env s)).log =
       nQueries "ACQuire:STATE?" s.log + 10) := by
  constructor
  · intro h
    unfold arm
    rw [if_pos h]
  · intro hc hw hf hr
    have harm : arm env s = .error (.osError "Failed to arm scope",
        dis { s with log := armPollLog env 10 (WireOp.write "ACQuire:STATE 1" :: s.log) }) := by
      unfold arm
      rw [if_neg (by simp [hc])]
      unfold wwrite
      rw [hw]
      simp only [Bool.false_eq_true, if_false]
      rw [armPoll_exhausts env hf hr 10
        { s with log := WireOp.write "ACQuire:STATE 1" :: s.log }]
    rw [harm]
    refine ⟨rfl, rfl, ?_⟩
    show nQueries "ACQuire:STATE?" (armPollLog env 10 (WireOp.write "ACQuire:STATE 1" :: s.log)) = _
    rw [nQueries_armPollLog]
    simp [nQueries]

/-- C4 witness: under the all-empty-response environment, arming a
connected fresh session fails after exactly 10 polls and leaves the
session disconnected; a disconnected session is rejected untouched. -/
theorem arm_budget_and_preconditions_witness :
    (arm env0 initScope =
      .error (.osError "Scope is not connected. Connect it first...", initScope)) ∧
    errOf (arm env0 { initScope with connectStatus := true }) =
      some (.osError "Failed to arm scope") ∧
    (resState (arm env0 { initScope with connectStatus := true })).connectStatus = false ∧
    nQueries "ACQuire:STATE?"
        (resState (arm env0 { initScope with connectStatus := true })).log =
      nQueries "ACQuire:STATE?" ({ initScope with connectStatus := true } : Scope).log + 10 :=
  ⟨(arm_budget_and_preconditions env0 initScope).1 rfl,
   (arm_budget_and_preconditions env0 { initScope with connectStatus := true }).2
     rfl rfl (fun _ => rfl) (fun _ => (by decide : pyStrip "" ≠ "1"))⟩

/-! ### C2: disconnect discipline of the connect path -/

/-- Environment answering the identity query with only three fields. -/
def envC2 : Env :=
  { env0 with resp := fun _ q => if q == "*IDN?" then "TEK,MSO44,x" else "" }

/-- C2 counterexample: with an identity response of 3 comma-separated
fields, `con` raises the invalid-IDN `OSError` while the transport is left
open — no disconnect is forced on this setup failure, contradicting the
claim that every connection-setup failure disconnects before re-raising. -/
theorem con_malformed_idn_leaks_transport :
    errOf (con envC2 "1.2.3.4" initScope) =
      some (.osError "Invalid IDN string returned from scope") ∧
    (resState (con envC2 "1.2.3.4" initScope)).transportOpen = true := by
  exact ⟨rfl, rfl⟩

/-- C2 (corrected): a transport failure during the identity query, a
vendor outside the allow-list, and a model outside the allow-list all
force a disconnect before the error propagates; but an identity response
that does not split into exactly 4 comma-separated fields raises the
protocol `OSError` without any disconnect, leaving the transport open. -/
theorem con_disconnect_on_setup_failure (env : Env) (ip : String) (s : Scope)
    (hip : (ip == "") = false) (hop : env.openFails = false) :
    (env.fails s.log "*IDN?" = true →
       errOf (con env ip s) = some .visaError ∧
       (resState (con env ip s)).transportOpen = false ∧
       (resState (con env ip s)).connectStatus = false) ∧
    (∀ v rest, env.fails s.log "*IDN?" = false →
       splitComma (env.resp s.log "*IDN?") = v :: rest →
       (v :: rest).length = 4 → (v == "TEKTRONIX") = false →
       errOf (con env ip s) = some (.osError ("Invalid vendor returned from scope " ++ v)) ∧
       (resState (con env ip s)).transportOpen = false ∧
       (resState (con env ip s)).connectStatus = false) ∧
    (∀ m rest, env.fails s.log "*IDN?" = false →
       splitComma (env.resp s.log "*IDN?") = "TEKTRONIX" :: m :: rest →
       ("TEKTRONIX" :: m :: rest).length = 4 →
       (["MSO44", "MSO46"].contains m) = false →
       errOf (con env ip s) = some (.osError ("Invalid model returned from scope " ++ m)) ∧
       (resState (con env ip s)).transportOpen = false ∧
       (resState (con env ip s)).connectStatus = false) ∧
    (env.fails s.log "*IDN?" = false →
       (splitComma (env.resp s.log "*IDN?")).length ≠ 4 →
       errOf (con env ip s) = some (.osError "Invalid IDN string returned from scope") ∧
       (resState (con env ip s)).transportOpen = true) := by
  have hcon : con env ip s =
      (match id_scope env { s with transportOpen := true } with
       | .error e => .error e
       | .ok (sid, s) =>
         if sid.vendor != "TEKTRONIX" then
           .error (.osError ("Invalid vendor returned from scope " ++ sid.vendor), dis s)
         else if (["MSO44", "MSO46"].contains sid.model) = false then
           .error (.osError ("Invalid model returned from scope " ++ sid.model), dis s)
         else
           match wwrite env "DESE 255" s with
           | .error (e, s) => .error (e, dis s)
           | .ok s =>
             match wwrite env "*CLS" s with
             | .error (e, s) => .error (e, dis s)
             | .ok s =>
               match conConfig env s with
               | .error (e, s) => .error (e, dis s)
               | .ok s => .ok { s with connectStatus := true }) := by
    unfold con
    rw [if_neg (by simp [hip]), if_neg (by simp [hop])]
  refine ⟨?_, ?_, ?_, ?_⟩
  · intro hfail
    have hid : id_scope env { s with transportOpen := true } =
        .error (.visaError, dis { s with transportOpen := true }) := by
      unfold id_scope wquery
      rw [if_pos hfail]
    rw [hcon, hid]
    exact ⟨rfl, rfl, rfl⟩
  · intro v rest hq hsplit hlen hv
    have hid : id_scope env { s with transportOpen := true } =
        .ok ({ vendor := v, model := rest.getD 0 "", serial := rest.getD 1 ""
               firmware := rest.getD 2 "" },
          { s with transportOpen := true
                   log := .query "*IDN?" (env.resp s.log "*IDN?") :: s.log }) := by
      unfold id_scope wquery
      rw [hq]
      simp only [Bool.false_eq_true, if_false]
      show (if (splitComma (env.resp s.log "*IDN?")).length != 4 then _ else _) = _
      rw [hsplit]
      rw [if_neg (by simp [hlen])]
      rfl
    rw [hcon, hid]
    simp only [bne, hv, Bool.not_false, if_true]
    exact ⟨rfl, rfl, rfl⟩
  · intro m rest hq hsplit hlen hm
    have hid : id_scope env { s with transportOpen := true } =
        .ok ({ vendor := "TEKTRONIX", model := m, serial := rest.getD 0 ""
               firmware := rest.getD 1 "" },
          { s with transportOpen := true
                   log := .query "*IDN?" (env.resp s.log "*IDN?") :: s.log }) := by
      unfold id_scope wquery
      rw [hq]
      simp only [Bool.false_eq_true, if_false]
      show (if (splitComma (env.resp s.log "*IDN?")).length != 4 then _ else _) = _
      rw [hsplit]
      rw [if_neg (by simp [hlen])]
      rfl
    rw [hcon, hid]
    dsimp only
    rw [if_neg (by simp)]
    rw [if_pos hm]
    exact ⟨rfl, rfl, rfl⟩
  · intro hq hlen
    have hid : id_scope env { s with transportOpen := true } =
        .error (.osError "Invalid IDN string returned from scope",
          { s with transportOpen := true
                   log := .query "*IDN?" (env.resp s.log "*IDN?") :: s.log }) := by
      unfold id_scope wquery
      rw [hq]
      simp only [Bool.false_eq_true, if_false]
      show (if (splitComma (env.resp s.log "*IDN?")).length != 4 then _ else _) = _
      rw [if_pos (by simpa using hlen)]
    rw [hcon, hid]
    exact ⟨rfl, rfl⟩

/-- Environment whose identity query raises a transport error. -/
def envC2b : Env :=
  { env0 with fails := fun _ q => q == "*IDN?" }

/-- C2 witness: when the identity query itself raises, connect re-raises
the transport error with the transport closed and the session
disconnected. -/
theorem con_disconnect_on_setup_failure_witness :
    errOf (con envC2b "1.2.3.4" initScope) = some .visaError ∧
    (resState (con envC2b "1.2.3.4" initScope)).transportOpen = false ∧
    (resState (con envC2b "1.2.3.4" initScope)).connectStatus = false :=
  (con_disconnect_on_setup_failure envC2b "1.2.3.4" initScope rfl rfl).1 rfl

/-! ### C10: the connection flag is set only as the last step of con -/

/-- An environment under which `con` runs to completion: well-formed
Tektronix identity, numeric record length, no failures. -/
def envGood : Env :=
  { env0 with resp := fun _ q =>
      if q == "*IDN?" then "TEKTRONIX,MSO44,C019654,FV:2.0"
      else if q == "HORizontal:MODe:RECOrdlength?" then "1000"
      else "" }

/-- `wwrite` never changes the connection flag. -/
lemma wwrite_cs (env : Env) (c : String) (s : Scope) :
    (resState (wwrite env c s)).connectStatus = s.connectStatus := by
  unfold wwrite
  split <;> rfl

/-- `wquery` never changes the connection flag. -/
lemma wquery_cs (env : Env) (c : String) (s : Scope) :
    (gstate (wquery env c s)).connectStatus = s.connectStatus := by
  unfold wquery
  split <;> rfl

/-- The encoding setter never changes the connection flag. -/
lemma enc_set_cs (env : Env) (v : String) (s : Scope) :
    (resState (wfm_encoding_set env v s)).connectStatus = s.connectStatus := by
  unfold wfm_encoding_set wwrite
  split_ifs <;> rfl

/-- The binary-format setter never changes the connection flag. -/
lemma fmt_set_cs (env : Env) (v : String) (s : Scope) :
    (resState (wfm_binary_format_set env v s)).connectStatus = s.connectStatus := by
  unfold wfm_binary_format_set wwrite
  split_ifs <;> rfl

/-- The byte-order setter never changes the connection flag. -/
lemma ord_set_cs (env : Env) (v : String) (s : Scope) :
    (resState (wfm_byte_order_set env v s)).connectStatus = s.connectStatus := by
  unfold wfm_byte_order_set wwrite
  split_ifs <;> rfl

/-- The byte-width setter never changes the connection flag. -/
lemma nr_set_cs (env : Env) (v : Int) (s : Scope) :
    (resState (wfm_byte_nr_set env v s)).connectStatus = s.connectStatus := by
  unfold wfm_byte_nr_set wwrite
  split_ifs <;> rfl

/-- The waveform-configuration block of `con` never changes the connection
flag (neither on success nor in the state carried by an error). -/
lemma conConfig_cs (env : Env) (s : Scope) :
    (resState (conConfig env s)).connectStatus = s.connectStatus := by
  unfold conConfig
  cases h1 : wfm_encoding_set env "binary" s with
  | error es => have t := enc_set_cs env "binary" s; rw [h1] at t; exact t
  | ok s1 =>
  dsimp only
  have t1 : s1.connectStatus = s.connectStatus := by
    have t := enc_set_cs env "binary" s; rw [h1] at t; exact t
  cases h2 : wfm_binary_format_set env "ri" s1 with
  | error es => have t := fmt_set_cs env "ri" s1; rw [h2] at t; exact t.trans t1
  | ok s2 =>
  dsimp only
  have t2 : s2.connectStatus = s.connectStatus := by
    have t := fmt_set_cs env "ri" s1; rw [h2] at t; exact t.trans t1
  cases h3 : wfm_byte_order_set env "lsb" s2 with
  | error es => have t := ord_set_cs env "lsb" s2; rw [h3] at t; exact t.trans t2
  | ok s3 =>
  dsimp only
  have t3 : s3.connectStatus = s.connectStatus := by
    have t := ord_set_cs env "lsb" s2; rw [h3] at t; exact t.trans t2
  cases h4 : wfm_byte_nr_set env 2 s3 with
  | error es => have t := nr_set_cs env 2 s3; rw [h4] at t; exact t.trans t3
  | ok s4 =>
  dsimp only
  have t4 : s4.connectStatus = s.connectStatus := by
    have t := nr_set_cs env 2 s3; rw [h4] at t; exact t.trans t3
  cases h5 : wquery env "HORizontal:MODe:RECOrdlength?" s4 with
  | error es =>
      have t := wquery_cs env "HORizontal:MODe:RECOrdlength?" s4
      rw [h5] at t; exact t.trans t4
  | ok rs =>
  obtain ⟨r, s5⟩ := rs
  dsimp only
  have t5 : s5.connectStatus = s.connectStatus := by
    have t := wquery_cs env "HORizontal:MODe:RECOrdlength?" s4
    rw [h5] at t; exact t.trans t4
  cases hp : pyInt r with
  | none => exact t5
  | some n =>
  dsimp only
  cases h6 : wwrite env "DATA:START 1" { s5 with record_len := n } with
  | error es =>
      have t := wwrite_cs env "DATA:START 1" { s5 with record_len := n }
      rw [h6] at t; exact t.trans t5
  | ok s6 =>
  dsimp only
  have t6 : s6.connectStatus = s.connectStatus := by
    have t := wwrite_cs env "DATA:START 1" { s5 with record_len := n }
    rw [h6] at t; exact t.trans t5
  cases h7 : wwrite env ("DATA:STOP " ++ toString n) s6 with
  | error es =>
      have t := wwrite_cs env ("DATA:STOP " ++ toString n) s6
      rw [h7] at t; exact t.trans t6
  | ok s7 =>
      have t := wwrite_cs env ("DATA:STOP " ++ toString n) s6
      rw [h7] at t; exact t.trans t6

/-- `_id_scope` keeps the connection flag false when it was false (the
transport-failure branch disconnects, the other branches preserve it). -/
lemma id_scope_cs (env : Env) (s : Scope) (h : s.connectStatus = false) :
    (gstate (id_scope env s)).connectStatus = false := by
  unfold id_scope
  cases hq : wquery env "*IDN?" s with
  | error es =>
      obtain ⟨e, s2⟩ := es
      rfl
  | ok rs =>
      obtain ⟨idn, s2⟩ := rs
      dsimp only
      have hs2 : s2.connectStatus = false := by
        have t := wquery_cs env "*IDN?" s
        rw [hq] at t
        exact t.trans h
      split <;> exact hs2

/-- C10 (confirmed): starting from an unconnected session, the connection
flag after `con` is true exactly when `con` returned without raising: every
failing path — empty address, transport open, identity query, malformed
identity, vendor/model check, baseline setup command, waveform
configuration — leaves the flag false, and only the fully successful final
step sets it. -/
theorem con_sets_flag_last (env : Env) (ip : String) (s : Scope)
    (h : s.connectStatus = false) :
    (resState (con env ip s)).connectStatus = (errOf (con env ip s)).isNone := by
  unfold con
  dsimp only
  split
  · exact h
  · split
    · exact h
    · cases hid : id_scope env { s with transportOpen := true } with
      | error es =>
          have t := id_scope_cs env { s with transportOpen := true } h
          rw [hid] at t
          exact t
      | ok rs =>
      obtain ⟨sid, s2⟩ := rs
      dsimp only
      have hs2 : s2.connectStatus = false := by
        have t := id_scope_cs env { s with transportOpen := true } h
        rw [hid] at t
        exact t
      split
      · rfl
      · split
        · rfl
        · cases hw1 : wwrite env "DESE 255" s2 with
          | error es => rfl
          | ok s3 =>
          dsimp only
          have hs3 : s3.connectStatus = false := by
            have t := wwrite_cs env "DESE 255" s2; rw [hw1] at t; exact t.trans hs2
          cases hw2 : wwrite env "*CLS" s3 with
          | error es => rfl
          | ok s4 =>
          dsimp only
          have hs4 : s4.connectStatus = false := by
            have t := wwrite_cs env "*CLS" s3; rw [hw2] at t; exact t.trans hs3
          cases hcc : conConfig env s4 with
          | error es => rfl
          | ok s5 => rfl

/-- C10 witness: with an empty address `con` fails and the flag stays
false; under a fully healthy environment `con` succeeds and only then is
the flag true. -/
theorem con_sets_flag_last_witness :
    (resState (con env0 "" initScope)).connectStatus = false ∧
    (resState (con envGood "10.0.0.1" initScope)).connectStatus = true := by
  constructor
  · rw [con_sets_flag_last env0 "" initScope rfl]
    rfl
  · rw [con_sets_flag_last envGood "10.0.0.1" initScope rfl]
    rfl

/-! ### C1: capture preconditions -/

/-- Environment with a healthy instrument: sane waveform framing answers,
an immediately fired trigger and available data. -/
def envC1 : Env :=
  { env0 with
      resp := fun _ q =>
        if q == "WFMOutpre:BYT_Nr?" then "2"
        else if q == "WFMOutpre:BN_Fmt?" then "RI"
        else if q == "WFMOutpre:BYT_Or?" then "LSB"
        else if q == "WFMOutpre:ENCdg?" then "BINARY"
        else if q == "TRIGger:STATE?" then "READY"
        else if q == "DATa:SOUrce:AVAILable?" then "CH1"
        else ""
      binData := fun _ => [7, 8] }

/-- A connected session with a source selected but no waveform setting
established (all caches empty). -/
def sReady : Scope :=
  { initScope with srcAttr := "ch1", connectStatus := true, transportOpen := true }

/-- C1 counterexample: on a session whose encoding, binary format, byte
order and byte width have not been established, capture() neither fails
nor stays off the wire — the truthiness check reads the four settings
through lazy getters that issue four queries (seven wire operations in
total by the end), and the capture succeeds. -/
theorem capture_unconfigured_queries_wire :
    sReady.cached_wfm_encoding = "" ∧ sReady.cached_wfm_byte_nr = 0 ∧
    sReady.cached_wfm_format = "" ∧ sReady.cached_wfm_order = "" ∧
    sReady.log = [] ∧
    CapOut.isOk (capture envC1 5 sReady) = true ∧
    (CapOut.stateOf (capture envC1 5 sReady)).log.length = 7 := by
  exact ⟨rfl, rfl, rfl, rfl, rfl, rfl, rfl⟩

/-- C1 (corrected): capture() fails fast with no wire traffic only when no
waveform source is selected; a setting that has not been established is
instead fetched from the instrument by the lazy getter — wire traffic —
and the precondition error is raised only when a fetched value is falsy
(here: byte width read back as 0), after those queries. -/
theorem capture_preconditions (env : Env) (s : Scope) (fuel : Nat) :
    (s.srcAttr = "" →
       capture env fuel s =
         .err (.valueError "Must set waveform source before starting capture") s) ∧
    (s.srcAttr ≠ "" → s.cached_wfm_byte_nr = 0 →
     s.cached_wfm_format ≠ "" → s.cached_wfm_order ≠ "" →
     s.cached_wfm_encoding ≠ "" →
     env.fails s.log "WFMOutpre:BYT_Nr?" = false →
     pyInt (env.resp s.log "WFMOutpre:BYT_Nr?") = some 0 →
       capture env fuel s =
         .err (.valueError "Must arm scope before starting capture")
           { s with cached_wfm_byte_nr := 0
                    log := .query "WFMOutpre:BYT_Nr?" (env.resp s.log "WFMOutpre:BYT_Nr?") :: s.log }) := by
  constructor
  · intro h
    unfold capture
    rw [if_pos (by simp [h])]
  · intro hsrc hbn hbf hbo henc hfl hresp
    have hg1 : wfm_byte_nr_get env s = .ok (0,
        { s with cached_wfm_byte_nr := 0
                 log := .query "WFMOutpre:BYT_Nr?" (env.resp s.log "WFMOutpre:BYT_Nr?") :: s.log }) := by
      unfold wfm_byte_nr_get wquery
      rw [if_pos (by simp [hbn]), hfl]
      simp only [Bool.false_eq_true, if_false]
      rw [hresp]
    have hg2 : ∀ s2 : Scope, s2.cached_wfm_format = s.cached_wfm_format →
        wfm_binary_format_get env s2 = .ok (s2.cached_wfm_format, s2) := by
      intro s2 h2
      unfold wfm_binary_format_get
      rw [if_neg (by simp [h2, hbf])]
    have hg3 : ∀ s2 : Scope, s2.cached_wfm_order = s.cached_wfm_order →
        wfm_byte_order_get env s2 = .ok (s2.cached_wfm_order, s2) := by
      intro s2 h2
      unfold wfm_byte_order_get
      rw [if_neg (by simp [h2, hbo])]
    have hg4 : ∀ s2 : Scope, s2.cached_wfm_encoding = s.cached_wfm_encoding →
        wfm_encoding_get env s2 = .ok (s2.cached_wfm_encoding, s2) := by
      intro s2 h2
      unfold wfm_encoding_get
      rw [if_neg (by simp [h2, henc])]
    unfold capture
    rw [if_neg (by simp [hsrc])]
    rw [hg1]
    dsimp only
    rw [hg2 { s with cached_wfm_byte_nr := 0, log := .query "WFMOutpre:BYT_Nr?" (env.resp s.log "WFMOutpre:BYT_Nr?") :: s.log } rfl]
    dsimp only
    rw [hg3 { s with cached_wfm_byte_nr := 0, log := .query "WFMOutpre:BYT_Nr?" (env.resp s.log "WFMOutpre:BYT_Nr?") :: s.log } rfl]
    dsimp only
    rw [hg4 { s with cached_wfm_byte_nr := 0, log := .query "WFMOutpre:BYT_Nr?" (env.resp s.log "WFMOutpre:BYT_Nr?") :: s.log } rfl]
    dsimp only
    rw [if_pos (by simp)]

/-- Environment whose byte-width query reads back "0". -/
def envC1w : Env :=
  { env0 with resp := fun _ q => if q == "WFMOutpre:BYT_Nr?" then "0" else "" }

/-- Session with source selected and every cache but byte width
populated. -/
def sC1w : Scope :=
  { initScope with srcAttr := "ch1", cached_wfm_format := "ri"
                   cached_wfm_order := "lsb", cached_wfm_encoding := "binary" }

/-- C1 witness: a source-less capture fails fast with the state untouched;
a capture whose byte-width cache is empty queries the instrument once and
only then fails on the read-back zero. -/
theorem capture_preconditions_witness :
    capture envC1w 3 initScope =
      .err (.valueError "Must set waveform source before starting capture") initScope ∧
    capture envC1w 3 sC1w =
      .err (.valueError "Must arm scope before starting capture")
        { sC1w with cached_wfm_byte_nr := 0
                    log := [.query "WFMOutpre:BYT_Nr?" "0"] } :=
  ⟨(capture_preconditions envC1w initScope 3).1 rfl,
   (capture_preconditions envC1w sC1w 3).2 (by decide) rfl (by decide) (by decide)
     (by decide) rfl (by decide)⟩

/-! ### C3: single-timestamp deadlines in capture -/

/-- The wire log after one trigger-state poll on top of `l`. -/
def trigPollLog (env : Env) (l : List WireOp) : List WireOp :=
  .query "TRIGger:STATE?" (env.resp l "TRIGger:STATE?") :: l

/-- The wire log after the forced trigger that follows a timed-out
trigger-wait. -/
def forcedLog (env : Env) (l : List WireOp) : List WireOp :=
  .write "TRIGger FORCe" :: trigPollLog env l

/-- The wire log after one data-availability poll on top of `l`. -/
def dataPollLog (env : Env) (l : List WireOp) : List WireOp :=
  .query "DATa:SOUrce:AVAILable?" (env.resp l "DATa:SOUrce:AVAILable?") :: l

/-- C3 (confirmed): with the instrument stuck reporting "armed" and "none"
and the clock already past `start + timeout` — where `start` is the single
capture-start reading `env.now s.log` used by BOTH deadline hypotheses —
capture polls the trigger exactly once, force-triggers, marks the result
timed out, still proceeds to the data-wait, polls data availability
exactly once, and returns the timed-out result immediately with no
waveform read: the final log is exactly one data poll over one forced
trigger over one trigger poll. -/
theorem capture_deadlines_from_start (env : Env) (s : Scope) (fuel : Nat)
    (hsrc : s.srcAttr ≠ "")
    (hbn : s.cached_wfm_byte_nr ≠ 0) (hbf : s.cached_wfm_format ≠ "")
    (hbo : s.cached_wfm_order ≠ "") (henc : s.cached_wfm_encoding ≠ "")
    (htr : ∀ l, strContains (pyLower (env.resp l "TRIGger:STATE?")) "armed" = true)
    (hda : ∀ l, strContains (pyLower (env.resp l "DATa:SOUrce:AVAILable?")) "none" = true)
    (hfl : ∀ l c, env.fails l c = false)
    (hn1 : s.timeoutAttr < env.now (trigPollLog env s.log) - env.now s.log)
    (hn2 : s.timeoutAttr <
      env.now (dataPollLog env (forcedLog env s.log)) - env.now s.log) :
    capture env (fuel + 1) s =
      .ok true { s with log := dataPollLog env (forcedLog env s.log) } := by
  have hs0 : (s.srcAttr == "") = false := beq_eq_false_iff_ne.mpr hsrc
  have hg1 : wfm_byte_nr_get env s = .ok (s.cached_wfm_byte_nr, s) := by
    unfold wfm_byte_nr_get
    rw [if_neg (by simp [hbn])]
  have hg2 : wfm_binary_format_get env s = .ok (s.cached_wfm_format, s) := by
    unfold wfm_binary_format_get
    rw [if_neg (by simp [hbf])]
  have hg3 : wfm_byte_order_get env s = .ok (s.cached_wfm_order, s) := by
    unfold wfm_byte_order_get
    rw [if_neg (by simp [hbo])]
  have hg4 : wfm_encoding_get env s = .ok (s.cached_wfm_encoding, s) := by
    unfold wfm_encoding_get
    rw [if_neg (by simp [henc])]
  simp only [trigPollLog] at hn1
  simp only [dataPollLog] at hn2
  have htw : trigWait env (env.now s.log) s.timeoutAttr (fuel + 1) s =
      .ok true { s with log := forcedLog env s.log } := by
    rw [trigWait]
    unfold wquery
    rw [hfl s.log "TRIGger:STATE?"]
    simp only [Bool.false_eq_true, if_false]
    dsimp only
    rw [htr s.log]
    simp only [if_true]
    rw [if_pos hn1]
    unfold wwrite
    rw [hfl]
    simp only [Bool.false_eq_true, if_false]
    rfl
  have hdw : dataWait env (env.now s.log) s.timeoutAttr (fuel + 1)
      { s with log := forcedLog env s.log } =
      .ok true { s with log := dataPollLog env (forcedLog env s.log) } := by
    rw [dataWait]
    unfold wquery
    rw [hfl]
    simp only [Bool.false_eq_true, if_false]
    dsimp only
    rw [hda]
    simp only [if_true]
    rw [if_pos hn2]
    rfl
  unfold capture
  rw [if_neg (by simp [hsrc])]
  rw [hg1]
  try dsimp only
  rw [hg2]
  try dsimp only
  rw [hg3]
  try dsimp only
  rw [hg4]
  try dsimp only
  rw [if_neg (by simp [hbn, hbf, hbo, henc])]
  try dsimp only
  rw [htw]
  try dsimp only
  rw [hdw]

/-- Environment stuck on "ARMED"/"NONE" with a clock that jumps past the
timeout after the first wire operation. -/
def envC3 : Env :=
  { env0 with
      resp := fun _ q =>
        if q == "TRIGger:STATE?" then "ARMED"
        else if q == "DATa:SOUrce:AVAILable?" then "NONE" else ""
      now := fun l => 10 * l.length }

/-- A fully configured, connected session. -/
def sC3 : Scope :=
  { initScope with srcAttr := "ch1", cached_wfm_byte_nr := 2
                   cached_wfm_format := "ri", cached_wfm_order := "lsb"
                   cached_wfm_encoding := "binary", connectStatus := true
                   transportOpen := true }

/-- C3 witness: on the stuck instrument the capture returns timed-out with
exactly one trigger poll, the forced trigger, one data poll, and no
waveform read. -/
theorem capture_deadlines_from_start_witness :
    capture envC3 1 sC3 = .ok true
      { sC3 with log := [.query "DATa:SOUrce:AVAILable?" "NONE",
                         .write "TRIGger FORCe",
                         .query "TRIGger:STATE?" "ARMED"] } :=
  capture_deadlines_from_start envC3 sC3 0 (by decide) (by decide) (by decide)
    (by decide) (by decide)
    (fun _ => (by decide : strContains (pyLower "ARMED") "armed" = true))
    (fun _ => (by decide : strContains (pyLower "NONE") "none" = true))
    (fun _ _ => rfl) (by decide) (by decide)

/-! ### C6: decode-step failures -/

/-- Environment with an immediately fired trigger and available data. -/
def envC6 : Env :=
  { env0 with resp := fun _ q =>
      if q == "TRIGger:STATE?" then "READY"
      else if q == "DATa:SOUrce:AVAILable?" then "CH1" else "" }

/-- A connected session whose cached framing is byte width 1 with the
float format — a pair absent from the decode table. -/
def sC6 : Scope :=
  { initScope with srcAttr := "ch1", cached_wfm_byte_nr := 1
                   cached_wfm_format := "fp", cached_wfm_order := "lsb"
                   cached_wfm_encoding := "binary", connectStatus := true
                   transportOpen := true }

/-- C6 counterexample: reaching the decode step with the (width 1, float)
pair raises a `KeyError` from the bare dictionary lookup, not the
unsupported-encoding `IOError` the claim promises. -/
theorem capture_table_miss_keyerror :
    CapOut.errOf (capture envC6 3 sC6) = some .keyError := by rfl

/-- C6 (corrected): at the decode step, an "ascii" encoding raises
`IOError/OSError` "Unknown data encoding" while a (byte width, binary
format) pair missing from the decode table raises `KeyError`; in both
cases the raise-time state differs from the pre-capture state only in the
two poll queries — every cached setting and the waveform buffer are
untouched. -/
theorem capture_decode_errors (env : Env) (s : Scope) (fuel : Nat)
    (hsrc : s.srcAttr ≠ "")
    (hbn : s.cached_wfm_byte_nr ≠ 0) (hbf : s.cached_wfm_format ≠ "")
    (hbo : s.cached_wfm_order ≠ "") (henc : s.cached_wfm_encoding ≠ "")
    (htr : strContains (pyLower (env.resp s.log "TRIGger:STATE?")) "armed" = false)
    (hda : strContains (pyLower (env.resp (trigPollLog env s.log)
      "DATa:SOUrce:AVAILable?")) "none" = false)
    (hfl : ∀ l c, env.fails l c = false) :
    (s.cached_wfm_encoding = "ascii" →
       capture env (fuel + 1) s = .err (.osError "Unknown data encoding")
         { s with log := dataPollLog env (trigPollLog env s.log) }) ∧
    (s.cached_wfm_encoding = "binary" →
     typesTable s.cached_wfm_byte_nr s.cached_wfm_format = none →
       capture env (fuel + 1) s = .err .keyError
         { s with log := dataPollLog env (trigPollLog env s.log) }) := by
  have hg1 : ∀ s2 : Scope, s2.cached_wfm_byte_nr = s.cached_wfm_byte_nr →
      wfm_byte_nr_get env s2 = .ok (s2.cached_wfm_byte_nr, s2) := by
    intro s2 h2
    unfold wfm_byte_nr_get
    rw [if_neg (by simp [h2, hbn])]
  have hg2 : ∀ s2 : Scope, s2.cached_wfm_format = s.cached_wfm_format →
      wfm_binary_format_get env s2 = .ok (s2.cached_wfm_format, s2) := by
    intro s2 h2
    unfold wfm_binary_format_get
    rw [if_neg (by simp [h2, hbf])]
  have hg3 : ∀ s2 : Scope, s2.cached_wfm_order = s.cached_wfm_order →
      wfm_byte_order_get env s2 = .ok (s2.cached_wfm_order, s2) := by
    intro s2 h2
    unfold wfm_byte_order_get
    rw [if_neg (by simp [h2, hbo])]
  have hg4 : ∀ s2 : Scope, s2.cached_wfm_encoding = s.cached_wfm_encoding →
      wfm_encoding_get env s2 = .ok (s2.cached_wfm_encoding, s2) := by
    intro s2 h2
    unfold wfm_encoding_get
    rw [if_neg (by simp [h2, henc])]
  have htw : trigWait env (env.now s.log) s.timeoutAttr (fuel + 1) s =
      .ok false { s with log := trigPollLog env s.log } := by
    rw [trigWait]
    unfold wquery
    rw [hfl s.log "TRIGger:STATE?"]
    simp only [Bool.false_eq_true, if_false]
    dsimp only
    rw [htr]
    simp only [Bool.false_eq_true, if_false]
    rfl
  have hdw : dataWait env (env.now s.log) s.timeoutAttr (fuel + 1)
      { s with log := trigPollLog env s.log } =
      .ok false { s with log := dataPollLog env (trigPollLog env s.log) } := by
    rw [dataWait]
    unfold wquery
    rw [hfl]
    simp only [Bool.false_eq_true, if_false]
    dsimp only
    rw [hda]
    simp only [Bool.false_eq_true, if_false]
    rfl
  have hcommon : capture env (fuel + 1) s =
      captureDecode env false { s with log := dataPollLog env (trigPollLog env s.log) } := by
    unfold capture
    rw [if_neg (by simp [hsrc])]
    rw [hg1 s rfl]
    try dsimp only
    rw [hg2 s rfl]
    try dsimp only
    rw [hg3 s rfl]
    try dsimp only
    rw [hg4 s rfl]
    try dsimp only
    rw [if_neg (by simp [hbn, hbf, hbo, henc])]
    try dsimp only
    rw [htw]
    try dsimp only
    rw [hdw]
  constructor
  · intro hascii
    rw [hcommon]
    unfold captureDecode
    rw [hg4 { s with log := dataPollLog env (trigPollLog env s.log) } rfl]
    try dsimp only
    rw [if_neg (by simp [hascii])]
  · intro hbin hmiss
    rw [hcommon]
    unfold captureDecode
    rw [hg4 { s with log := dataPollLog env (trigPollLog env s.log) } rfl]
    try dsimp only
    rw [if_pos (by simp [hbin])]
    rw [hg1 { s with log := dataPollLog env (trigPollLog env s.log) } rfl]
    try dsimp only
    rw [hg2 { s with log := dataPollLog env (trigPollLog env s.log) } rfl]
    try dsimp only
    rw [hmiss]

/-- A connected session configured for ascii encoding. -/
def sC6a : Scope :=
  { sC6 with cached_wfm_byte_nr := 2, cached_wfm_format := "ri"
             cached_wfm_encoding := "ascii" }

/-- C6 witness: the ascii-encoded capture raises the unknown-data-encoding
`OSError` after the two poll queries, with caches and buffer untouched. -/
theorem capture_decode_errors_witness :
    capture envC6 1 sC6a = .err (.osError "Unknown data encoding")
      { sC6a with log := [.query "DATa:SOUrce:AVAILable?" "CH1",
                          .query "TRIGger:STATE?" "READY"] } :=
  (capture_decode_errors envC6 sC6a 0 (by decide) (by decide) (by decide)
    (by decide) (by decide)
    (by decide) (by decide) (fun _ _ => rfl)).1 rfl

end MSO4Spec
